import Mathlib

/-!
Shallow embedding of the gridiron orchestration tools:
`tools/stitch_euler.py` (result stitcher), `tools/test_euler_dist.py`
(precondition guard, topology, launcher, wait-then-stitch sequencing),
`tools/bench_euler_dist.py` (`generate_peers`) and `tools/plot_perf.py`
(timeline analyzer views).

Modelling conventions:
  * CBOR patch payloads (`numFields`, the float `data` array) are never
    inspected by the stitcher, so they are kept as an opaque type
    parameter; rect bounds are modelled as `Int`.
  * The Python dict key `end` is a Lean keyword and is rendered `end_`.
  * The stitcher's module top level is modelled as a function returning
    `Except String` where `Except.error` is the printed `ERROR:` diagnostic
    with nothing written to `stitched.cbor`, and `Except.ok` is the state
    written to `stitched.cbor`.
  * `test_euler_dist.py`'s module top level is sequential Python; it is
    modelled as the ordered list of observable actions (`mainTrace`):
    directory scan, refusal, per-rank launch, per-rank blocking wait
    (carrying that process's exit status), stitch and chart.  The event
    vocabulary also has a `reportEv` action for surfacing a failure
    report, which lets absence of reporting be stated.
  * `glob.glob` pattern matching is modelled on filenames as `List Char`;
    the `*` wildcard matches any character run but, per `glob` semantics,
    a leading `*` does not match a name that starts with a dot.
-/

namespace Gridiron

variable {α β : Type}

/-- One axis of a patch rect: the dict `{start, end}` read by the stitcher
(`p['rect'][i]['start']`, `p['rect'][i]['end']`). -/
structure AxisRange where
  start : Int
  end_ : Int
  deriving DecidableEq

/-- A rectangular patch as read from an Euler output file.  `rect0` and
`rect1` are `p['rect'][0]` and `p['rect'][1]`; the remaining fields
(`numFields`, the float `data` payload), never inspected by the stitcher,
are kept opaque in `payload`. -/
structure Patch (α : Type) where
  rect0 : AxisRange
  rect1 : AxisRange
  payload : α
  deriving DecidableEq

/-- A loaded Euler output file: the `primitive` patch list plus all the
other top-level fields, which the stitcher copies around untouched
(collected in `rest`). -/
structure EulerFile (α β : Type) where
  primitive : List (Patch α)
  rest : β
  deriving DecidableEq

/-- The identity 4-tuple built for each patch by
`check_for_duplicate_patches`:
`(p['rect'][0]['start'], p['rect'][0]['end'], p['rect'][1]['start'], p['rect'][1]['end'])`. -/
def identTuple (p : Patch α) : Int × Int × Int × Int :=
  (p.rect0.start, p.rect0.end_, p.rect1.start, p.rect1.end_)

/-- `check_for_duplicate_patches(data)`: maps every patch of
`data['primitive']` to its rect tuple and reports whether the list of
tuples has fewer distinct elements than entries
(`len(rects) != len(set(rects))`). -/
def check_for_duplicate_patches (data : EulerFile α β) : Bool :=
  let rects := data.primitive.map identTuple
  decide (rects.length ≠ rects.dedup.length)

/-- The diagnostic `stitch_euler.py` prints when the duplicate check
fires. -/
def dupErrorMsg : String :=
  "ERROR: There are duplicate patches in these files"

/-- The merge loop of `stitch_euler.py`: start from the first loaded file
and, for each further file, extend the accumulator's `primitive` list with
that file's `primitive` list. -/
def stitchCombine (first : EulerFile α β) (rest : List (EulerFile α β)) :
    EulerFile α β :=
  rest.foldl
    (fun combined additional =>
      { combined with primitive := combined.primitive ++ additional.primitive })
    first

/-- Module top level of `stitch_euler.py` after the input files are
loaded: merge, run the duplicate check, and either surface the `ERROR:`
diagnostic (nothing written) or produce the state written to
`stitched.cbor`. -/
def stitchMain (first : EulerFile α β) (rest : List (EulerFile α β)) :
    Except String (EulerFile α β) :=
  let combined := stitchCombine first rest
  if check_for_duplicate_patches combined then
    Except.error dupErrorMsg
  else
    Except.ok combined

/-- The contents written to `stitched.cbor` by a stitch run, if any. -/
def writtenFile (first : EulerFile α β) (rest : List (EulerFile α β)) :
    Option (EulerFile α β) :=
  match stitchMain first rest with
  | Except.ok combined => some combined
  | Except.error _ => none

/-- The merged patch sequence of a list of input files: the concatenation
of every file's `primitive` list in file-argument order. -/
def mergedPatches (first : EulerFile α β) (rest : List (EulerFile α β)) :
    List (Patch α) :=
  ((first :: rest).map fun f => f.primitive).flatten

/-- A filename in the working directory, as a character list. -/
abbrev FileName := List Char

/-- Match of the glob basename pattern used by `check_for_old_results`,
`glob("./*.cbor")`: the name ends in `.cbor`, and (glob's hidden-file
rule for a leading `*`) does not start with a dot. -/
def matchesCborGlob (name : FileName) : Bool :=
  (name.headD '.' != '.') && List.isSuffixOf (".cbor".data) name

/-- Match of the glob basename pattern used by `get_result_files`,
`glob("./state-rank-*.cbor")`: the literal run before the `*`, then any
character run, then the literal `.cbor`. -/
def matchesRankGlob (name : FileName) : Bool :=
  List.isPrefixOf ("state-rank-".data) name &&
    List.isSuffixOf (".cbor".data) (name.drop ("state-rank-".data).length)

/-- `check_for_old_results()`: globs `./*.cbor` in the working directory
and reports whether any file matched (`len(cbor_files) > 0`). -/
def check_for_old_results (dirFiles : List FileName) : Bool :=
  decide (0 < (dirFiles.filter matchesCborGlob).length)

/-- `get_result_files()`: globs `./state-rank-*.cbor` in the working
directory. -/
def get_result_files (dirFiles : List FileName) : List FileName :=
  dirFiles.filter matchesRankGlob

/-- The peer address string `"127.0.0.1:{}".format(port)`. -/
def peerAddr (port : Nat) : String :=
  "127.0.0.1:" ++ toString port

/-- `generate_peers(n)` of `bench_euler_dist.py`, identical to the inline
peers list of `test_euler_dist.py`:
`["127.0.0.1:{}".format(8000 + i) for i in range(0, n)]`. -/
def generate_peers (n : Nat) : List String :=
  (List.range n).map fun i => peerAddr (8000 + i)

/-- Observable actions of the `test_euler_dist.py` module top level.
`reportEv` (surfacing a failure report for a set of ranks with exit
statuses) is part of the vocabulary so that its absence can be stated;
the script never performs it. -/
inductive Ev where
  | scanEv : Ev
  | refuseEv : Ev
  | launchEv : Nat → Ev
  | waitEv : Nat → Int → Ev
  | reportEv : List (Nat × Int) → Ev
  | stitchEv : Ev
  | chartEv : Ev
  deriving DecidableEq

/-- The environment a `test_euler_dist.py` run faces: the working
directory's filenames, the requested peer count, the `--gui` flag, and
the exit status each launched rank's process will eventually exit with. -/
structure Env where
  dirFiles : List FileName
  peers : Nat
  gui : Bool
  exitCodes : Nat → Int

/-- Ordered trace of the observable actions of the `test_euler_dist.py`
module top level: scan the directory; if old `*.cbor` results are
present, print the warning and `exit()` (refusal); otherwise launch one
process per rank in rank order, then block on each process's exit in rank
order (`[o.wait() for o in out]`), and finally, only when `--gui` was
given, stitch the per-rank results and show the chart. -/
def mainTrace (env : Env) : List Ev :=
  Ev.scanEv ::
    (if check_for_old_results env.dirFiles then
      [Ev.refuseEv]
    else
      ((List.range env.peers).map Ev.launchEv) ++
        ((List.range env.peers).map fun r => Ev.waitEv r (env.exitCodes r)) ++
        (if env.gui then [Ev.stitchEv, Ev.chartEv] else []))

/-- All rank/exit-status pairs surfaced by failure-report actions in a
trace. -/
def reportedFailures (t : List Ev) : List (Nat × Int) :=
  (t.filterMap fun e =>
    match e with
    | Ev.reportEv l => some l
    | _ => none).flatten

/-- The ranks whose process exited with a non-zero status in an
environment, with their exit statuses: what a failure report for the run
would have to contain. -/
def failedRanks (env : Env) : List (Nat × Int) :=
  (List.range env.peers).filterMap fun r =>
    if env.exitCodes r ≠ 0 then some (r, env.exitCodes r) else none

/-- The event-type string of the work spans in `plot_perf.py`. -/
def workEvent : String := "work"

/-- The event-type string of the network spans in `plot_perf.py`. -/
def networkEvent : String := "network"

/-- One row of the performance CSV as loaded by `read_results`:
`(event, id, start, stop)`. -/
abbrev PerfRow := String × Int × Int × Int

/-- `extract_results_by_event(event, results)`: keeps the rows whose
event type equals `event`, in source order, projected to
`(id, start, stop)`. -/
def extract_results_by_event (event : String) (results : List PerfRow) :
    List (Int × Int × Int) :=
  results.filterMap fun r => if r.1 = event then some r.2 else none

/-- `extract_results_by_id(id, results)`: keeps the rows whose worker id
equals `id`, in source order. -/
def extract_results_by_id (id : Int) (results : List (Int × Int × Int)) :
    List (Int × Int × Int) :=
  results.filter fun r => decide (r.1 = id)

/-- `extract_work_results(results)`. -/
def extract_work_results (results : List PerfRow) : List (Int × Int × Int) :=
  extract_results_by_event workEvent results

/-- `extract_network_results(results)`. -/
def extract_network_results (results : List PerfRow) : List (Int × Int × Int) :=
  extract_results_by_event networkEvent results

/-- `extract_duration(results)`: the list of starts and the list of
`stop - start` durations, positionally paired. -/
def extract_duration (results : List (Int × Int × Int)) :
    List Int × List Int :=
  (results.map fun r => r.2.1, results.map fun r => r.2.2 - r.2.1)

/-- The per-rank launch actions of a run, in rank order. -/
def launchBlock (env : Env) : List Ev :=
  (List.range env.peers).map Ev.launchEv

/-- The per-rank blocking wait actions of a run, in rank order, each
carrying the exit status the wait observed. -/
def waitBlock (env : Env) : List Ev :=
  (List.range env.peers).map fun r => Ev.waitEv r (env.exitCodes r)

/-- The actions of the `--gui` branch: stitch the results and show the
chart. -/
def guiTail (env : Env) : List Ev :=
  if env.gui then [Ev.stitchEv, Ev.chartEv] else []

/-- Everything a non-refused run does before its `--gui` branch: the
scan, all launches, all waits. -/
def runPrefix (env : Env) : List Ev :=
  Ev.scanEv :: (launchBlock env ++ waitBlock env)

/-- A patch used by concrete test inputs. -/
def patchA : Patch Unit := ⟨⟨0, 1⟩, ⟨0, 1⟩, ()⟩

/-- An input file whose two patches share one identity tuple. -/
def dupFileA : EulerFile Unit Unit := ⟨[patchA, patchA], ()⟩

/-- A single input file containing the same patch rect twice. -/
def dupFile9 : EulerFile Unit Unit :=
  ⟨[⟨⟨0, 1⟩, ⟨0, 1⟩, ()⟩, ⟨⟨0, 1⟩, ⟨0, 1⟩, ()⟩], ()⟩

/-- A single input file whose patches have pairwise-distinct identity
tuples. -/
def okFile9 : EulerFile Unit Unit :=
  ⟨[⟨⟨0, 1⟩, ⟨2, 3⟩, ()⟩, ⟨⟨1, 2⟩, ⟨2, 3⟩, ()⟩], ()⟩

/-- A clean-directory one-peer run whose only process exits with status
1. -/
def envFail : Env := ⟨[], 1, false, fun _ => 1⟩

/-- A clean-directory two-peer `--gui` run whose processes exit with
status 0. -/
def envRun : Env := ⟨[], 2, true, fun _ => 0⟩

/-- A directory still holding a leftover `a.cbor` artifact. -/
def envStale : Env := ⟨[("a.cbor").data], 2, true, fun _ => 0⟩

/-- A directory holding only a hidden `.old.cbor` file. -/
def envHidden : Env := ⟨[(".old.cbor").data], 1, false, fun _ => 0⟩

lemma stitchCombine_primitive (first : EulerFile α β) (rest : List (EulerFile α β)) :
    (stitchCombine first rest).primitive =
      first.primitive ++ (rest.map fun f => f.primitive).flatten := by
  induction rest generalizing first with
  | nil => simp [stitchCombine]
  | cons f fs ih =>
    have h := ih { first with primitive := first.primitive ++ f.primitive }
    simpa [stitchCombine, List.append_assoc] using h

lemma stitchCombine_rest (first : EulerFile α β) (rest : List (EulerFile α β)) :
    (stitchCombine first rest).rest = first.rest := by
  induction rest generalizing first with
  | nil => rfl
  | cons f fs ih =>
    exact ih { first with primitive := first.primitive ++ f.primitive }

lemma stitchCombine_primitive_merged (first : EulerFile α β)
    (rest : List (EulerFile α β)) :
    (stitchCombine first rest).primitive = mergedPatches first rest := by
  rw [stitchCombine_primitive]
  simp [mergedPatches]

lemma check_eq_true_iff (d : EulerFile α β) :
    check_for_duplicate_patches d = true ↔
      ¬ (d.primitive.map identTuple).Nodup := by
  simp only [check_for_duplicate_patches, decide_eq_true_eq]
  constructor
  · intro hne hnd
    exact hne (by rw [List.dedup_eq_self.mpr hnd])
  · intro hnd hlen
    apply hnd
    have hsub := List.dedup_sublist (d.primitive.map identTuple)
    have heq : (d.primitive.map identTuple).dedup = d.primitive.map identTuple :=
      hsub.eq_of_length hlen.symm
    rw [← heq]
    exact List.nodup_dedup _

lemma not_nodup_map_get_iff {γ δ : Type} (f : γ → δ) (l : List γ) :
    ¬ (l.map f).Nodup ↔
      ∃ i j : Fin l.length, i ≠ j ∧ f (l.get i) = f (l.get j) := by
  rw [show ((l.map f).Nodup ↔ l.Pairwise fun a b => f a ≠ f b) from
    List.pairwise_map, List.pairwise_iff_get]
  push_neg
  constructor
  · rintro ⟨i, j, hij, heq⟩
    exact ⟨i, j, Fin.ne_of_lt hij, heq⟩
  · rintro ⟨i, j, hne, heq⟩
    rcases lt_or_gt_of_ne hne with hlt | hgt
    · exact ⟨i, j, hlt, heq⟩
    · exact ⟨j, i, hgt, heq.symm⟩

/-- C2: the combined state built by the stitcher's merge loop has a
`primitive` field equal to the concatenation of every input file's patch
sequence in exact file-argument order, and every other top-level field
equal to the corresponding field of the first file, unchanged. -/
theorem stitch_concatenates_in_order (first : EulerFile α β)
    (rest : List (EulerFile α β)) :
    (stitchCombine first rest).primitive =
      ((first :: rest).map fun f => f.primitive).flatten ∧
    (stitchCombine first rest).rest = first.rest := by
  refine ⟨?_, stitchCombine_rest first rest⟩
  rw [stitchCombine_primitive]
  simp

/-- C8: the stitcher's duplicate check fires exactly when two patches at
distinct positions of the merged sequence have equal identity 4-tuples
`(axis0.start, axis0.end, axis1.start, axis1.end)`; a sequence whose
tuples are pairwise distinct passes, whatever coverage gaps or
non-identical intersections its rects have. -/
theorem check_for_duplicate_patches_iff (d : EulerFile α β) :
    check_for_duplicate_patches d = true ↔
      ∃ i j : Fin d.primitive.length, i ≠ j ∧
        identTuple (d.primitive.get i) = identTuple (d.primitive.get j) :=
  (check_eq_true_iff d).trans (not_nodup_map_get_iff identTuple d.primitive)

/-- C1: whenever the merged patch sequence of the input files contains
two patches with the same identity 4-tuple, the stitch run surfaces the
duplicate-patch error diagnostic and writes nothing to the output
path. -/
theorem stitch_rejects_duplicate_patches (first : EulerFile α β)
    (rest : List (EulerFile α β))
    (h : ∃ i j : Fin (mergedPatches first rest).length, i ≠ j ∧
      identTuple ((mergedPatches first rest).get i) =
        identTuple ((mergedPatches first rest).get j)) :
    stitchMain first rest = Except.error dupErrorMsg ∧
      writtenFile first rest = none := by
  have hcheck : check_for_duplicate_patches (stitchCombine first rest) = true := by
    rw [check_eq_true_iff, stitchCombine_primitive_merged]
    exact (not_nodup_map_get_iff identTuple (mergedPatches first rest)).mpr h
  constructor
  · simp [stitchMain, hcheck]
  · simp [writtenFile, stitchMain, hcheck]

/-- Witness for C1 at a concrete pair of duplicate patches. -/
theorem stitch_rejects_duplicate_patches_witness :
    stitchMain dupFileA [] = Except.error dupErrorMsg :=
  (stitch_rejects_duplicate_patches dupFileA [] (by decide)).1

/-- Counterexample to C9 as stated: a single input file whose own patch
list repeats one rect is rejected, so no output reproduces its patch
sequence. -/
theorem stitch_single_file_counterexample :
    dupFile9.primitive ≠ [] ∧ writtenFile dupFile9 [] = none := by decide

/-- C9 (amended): stitching a single file whose patch identity tuples
are pairwise distinct reproduces that file unchanged, patch sequence
included, in the output. -/
theorem stitch_single_file_roundtrip (f : EulerFile α β)
    (h : (f.primitive.map identTuple).Nodup) :
    writtenFile f [] = some f := by
  cases hb : check_for_duplicate_patches f with
  | false => simp [writtenFile, stitchMain, stitchCombine, hb]
  | true => exact absurd h ((check_eq_true_iff f).mp hb)

/-- Witness for C9 (amended) at a concrete duplicate-free file. -/
theorem stitch_single_file_roundtrip_witness :
    writtenFile okFile9 [] = some okFile9 :=
  stitch_single_file_roundtrip okFile9 (by decide)

lemma mainTrace_of_stale (env : Env)
    (h : ∃ f ∈ env.dirFiles, matchesCborGlob f = true) :
    mainTrace env = [Ev.scanEv, Ev.refuseEv] := by
  obtain ⟨f, hf, hm⟩ := h
  have hmem : f ∈ env.dirFiles.filter matchesCborGlob :=
    List.mem_filter.mpr ⟨hf, hm⟩
  have hpos : 0 < (env.dirFiles.filter matchesCborGlob).length :=
    List.length_pos.mpr (List.ne_nil_of_mem hmem)
  have hc : check_for_old_results env.dirFiles = true := by
    unfold check_for_old_results
    exact decide_eq_true hpos
  simp [mainTrace, hc]

lemma mainTrace_of_run (env : Env)
    (h : check_for_old_results env.dirFiles = false) :
    mainTrace env = runPrefix env ++ guiTail env := by
  simp [mainTrace, h, runPrefix, launchBlock, waitBlock, guiTail,
    List.append_assoc]

lemma stitch_not_mem_runPrefix (env : Env) :
    Ev.stitchEv ∉ runPrefix env := by
  simp [runPrefix, launchBlock, waitBlock]

lemma wait_mem_waitBlock (env : Env) (r : Nat) (hr : r < env.peers) :
    Ev.waitEv r (env.exitCodes r) ∈ waitBlock env :=
  List.mem_map.mpr ⟨r, List.mem_range.mpr hr, rfl⟩

lemma wait_mem_mainTrace (env : Env)
    (h : check_for_old_results env.dirFiles = false)
    (r : Nat) (hr : r < env.peers) :
    Ev.waitEv r (env.exitCodes r) ∈ mainTrace env := by
  rw [mainTrace_of_run env h]
  refine List.mem_append.mpr (Or.inl ?_)
  show Ev.waitEv r (env.exitCodes r) ∈
    Ev.scanEv :: (launchBlock env ++ waitBlock env)
  exact List.mem_cons_of_mem _
    (List.mem_append.mpr (Or.inr (wait_mem_waitBlock env r hr)))

lemma report_not_mem_mainTrace (env : Env) (l : List (Nat × Int)) :
    Ev.reportEv l ∉ mainTrace env := by
  intro hmem
  cases hcheck : check_for_old_results env.dirFiles with
  | true => simp [mainTrace, hcheck] at hmem
  | false => cases hgui : env.gui <;> simp [mainTrace, hcheck, hgui] at hmem

lemma reportedFailures_eq_nil (t : List Ev)
    (h : ∀ l, Ev.reportEv l ∉ t) : reportedFailures t = [] := by
  unfold reportedFailures
  have hfm : (t.filterMap fun e =>
      match e with
      | Ev.reportEv l => some l
      | _ => none) = [] := by
    rw [List.filterMap_eq_nil_iff]
    intro e he
    cases e with
    | reportEv l => exact absurd he (h l)
    | scanEv => rfl
    | refuseEv => rfl
    | launchEv r => rfl
    | waitEv r c => rfl
    | stitchEv => rfl
    | chartEv => rfl
  rw [hfm]
  rfl

/-- C6: when any working-directory file matches the guard's reserved
`*.cbor` glob, the run's trace is exactly the completed directory scan
followed by the refusal: nothing is launched. -/
theorem stale_results_refuse_launch (env : Env)
    (h : ∃ f ∈ env.dirFiles, matchesCborGlob f = true) :
    mainTrace env = [Ev.scanEv, Ev.refuseEv] ∧
      ∀ r, Ev.launchEv r ∉ mainTrace env := by
  have ht := mainTrace_of_stale env h
  refine ⟨ht, ?_⟩
  intro r hr
  rw [ht] at hr
  simp at hr

/-- Witness for C6 at a directory holding `a.cbor`. -/
theorem stale_results_refuse_launch_witness :
    mainTrace envStale = [Ev.scanEv, Ev.refuseEv] :=
  (stale_results_refuse_launch envStale
    ⟨("a.cbor").data, by decide, by decide⟩).1

/-- C4: on a non-refused run, the trace contains a blocking wait for
every launched rank, and any trace prefix in which stitching has begun
already contains every rank's wait: all processes have exited before
stitching starts. -/
theorem launcher_waits_all_before_stitch (env : Env)
    (h : check_for_old_results env.dirFiles = false) :
    (∀ r, r < env.peers → Ev.waitEv r (env.exitCodes r) ∈ mainTrace env) ∧
    ∀ n, Ev.stitchEv ∈ (mainTrace env).take n →
      ∀ r, r < env.peers →
        Ev.waitEv r (env.exitCodes r) ∈ (mainTrace env).take n := by
  refine ⟨fun r hr => wait_mem_mainTrace env h r hr, ?_⟩
  intro n hn r hr
  rcases le_or_lt n (runPrefix env).length with hle | hlt
  · exfalso
    apply stitch_not_mem_runPrefix env
    have h2 : (mainTrace env).take n = (runPrefix env).take n := by
      rw [mainTrace_of_run env h]
      exact List.take_append_of_le_length hle
    rw [h2] at hn
    exact List.take_subset n _ hn
  · have hlen : (runPrefix env).length ≤ n := Nat.le_of_lt hlt
    have h3 : (mainTrace env).take (runPrefix env).length = runPrefix env := by
      rw [mainTrace_of_run env h]
      exact List.take_left _ _
    have h4 : (mainTrace env).take (runPrefix env).length =
        ((mainTrace env).take n).take (runPrefix env).length := by
      rw [List.take_take, min_eq_left hlen]
    have h5 : Ev.waitEv r (env.exitCodes r) ∈
        (mainTrace env).take (runPrefix env).length := by
      rw [h3]
      show Ev.waitEv r (env.exitCodes r) ∈
        Ev.scanEv :: (launchBlock env ++ waitBlock env)
      exact List.mem_cons_of_mem _
        (List.mem_append.mpr (Or.inr (wait_mem_waitBlock env r hr)))
    rw [h4] at h5
    exact List.take_subset _ _ h5

/-- Witness for C4 on a clean two-peer gui run: the prefix that contains
the stitch action already contains the last rank's wait. -/
theorem launcher_waits_all_before_stitch_witness :
    Ev.waitEv 1 0 ∈ (mainTrace envRun).take 6 :=
  (launcher_waits_all_before_stitch envRun (by decide)).2
    6 (by decide) 1 (by decide)

/-- Counterexample to C3 as stated: in a run whose only process exits
with status 1, the launcher waits for it but surfaces no failure report
at all, although the failed-rank set is non-empty. -/
theorem launcher_no_failure_report_counterexample :
    failedRanks envFail = [(0, 1)] ∧
      Ev.waitEv 0 1 ∈ mainTrace envFail ∧
      reportedFailures (mainTrace envFail) = [] := by decide

/-- C3 (amended): on a non-refused run the launcher blocks on every
launched process's exit, but it never inspects the exit statuses: no
failure report of any kind is surfaced, whatever the exit codes. -/
theorem launcher_surfaces_no_failure_report (env : Env)
    (h : check_for_old_results env.dirFiles = false) :
    reportedFailures (mainTrace env) = [] ∧
      ∀ r, r < env.peers → Ev.waitEv r (env.exitCodes r) ∈ mainTrace env :=
  ⟨reportedFailures_eq_nil _ (report_not_mem_mainTrace env),
    fun r hr => wait_mem_mainTrace env h r hr⟩

/-- Witness for C3 (amended) on the one-peer failing run. -/
theorem launcher_surfaces_no_failure_report_witness :
    reportedFailures (mainTrace envFail) = [] :=
  (launcher_surfaces_no_failure_report envFail (by decide)).1

/-- C7: for every peer count `P ≥ 1` the topology builder yields exactly
`P` addresses; the address at rank `i` is the loopback host with port
`8000 + i`, so list order matches rank order and the port arguments are
strictly increasing along the list. -/
theorem generate_peers_spec (P : Nat) (h : 1 ≤ P) :
    (generate_peers P).length = P ∧
    (∀ i : Fin (generate_peers P).length,
      (generate_peers P).get i = peerAddr (8000 + i.val)) ∧
    ∀ i j : Fin P, i.val < j.val → 8000 + i.val < 8000 + j.val := by
  refine ⟨by simp [generate_peers], ?_, fun i j hij => by omega⟩
  intro i
  rcases i with ⟨v, hv⟩
  simp [generate_peers]

/-- Witness for C7 at peer count 3. -/
theorem generate_peers_spec_witness :
    (generate_peers 3).length = 3 :=
  (generate_peers_spec 3 (by decide)).1

/-- C5: the analyzer's per-worker view is the order-preserving filter of
the source log to that worker's work-typed spans (no re-sorting), and
the duration view yields one `(start, stop - start)` pair per span of
the chosen event type positionally, unchanged under any relabelling of
worker ids. -/
theorem timeline_views_are_ordered_filters (results : List PerfRow)
    (w : Int) (ev : String) (f : Int → Int) :
    extract_results_by_id w (extract_work_results results) =
      (results.filterMap fun r =>
        if r.1 = workEvent ∧ r.2.1 = w then some r.2 else none) ∧
    (extract_duration (extract_results_by_event ev results)).1 =
      (extract_results_by_event ev results).map (fun r => r.2.1) ∧
    (extract_duration (extract_results_by_event ev results)).2 =
      (extract_results_by_event ev results).map (fun r => r.2.2 - r.2.1) ∧
    extract_duration
        ((extract_results_by_event ev results).map fun r =>
          (f r.1, r.2.1, r.2.2)) =
      extract_duration (extract_results_by_event ev results) := by
  refine ⟨?_, rfl, rfl, ?_⟩
  · induction results with
    | nil => rfl
    | cons r rs ih =>
      obtain ⟨ty, i, s, e⟩ := r
      simp only [extract_results_by_id, extract_work_results,
        extract_results_by_event] at ih ⊢
      by_cases hty : ty = workEvent <;> by_cases hi : i = w <;>
        simp [hty, hi, ih]
  · simp [extract_duration, List.map_map, Function.comp]

lemma rank_match_implies_cbor_match (name : FileName)
    (h : matchesRankGlob name = true) : matchesCborGlob name = true := by
  unfold matchesRankGlob at h
  rw [Bool.and_eq_true] at h
  obtain ⟨hpre, hsuf⟩ := h
  rw [ List.isPrefixOf_iff_prefix] at hpre
  rw [List.isSuffixOf_iff_suffix] at hsuf
  obtain ⟨t, ht⟩ := hpre
  obtain ⟨u, hu⟩ := hsuf
  unfold matchesCborGlob
  rw [Bool.and_eq_true]
  constructor
  · rw [← ht]
    rfl
  · rw [List.isSuffixOf_iff_suffix]
    have hdrop : name.drop (("state-rank-").data).length = t := by
      rw [← ht]
      exact List.drop_left _ _
    rw [hdrop] at hu
    refine ⟨(("state-rank-").data) ++ u, ?_⟩
    rw [← ht, ← hu]
    simp [List.append_assoc]

/-- Counterexample to C10 as stated: the hidden file `.old.cbor` has the
`.cbor` extension, yet the glob's hidden-file rule keeps the guard from
matching it, so the run proceeds to launch instead of being refused. -/
theorem guard_hidden_cbor_counterexample :
    List.isSuffixOf ((".cbor").data) ((".old.cbor").data) = true ∧
      matchesCborGlob ((".old.cbor").data) = false ∧
      Ev.refuseEv ∉ mainTrace envHidden ∧
      Ev.launchEv 0 ∈ mainTrace envHidden := by decide

/-- C10 (amended): the guard's `*.cbor` glob is strictly broader than
the `state-rank-*.cbor` discovery pattern: every per-rank result name it
matches is also guarded against, while a combined `state.cbor` artifact
matches the guard but not the discovery pattern and refuses the run;
only non-hidden names (no leading dot) are matched by the guard. -/
theorem guard_pattern_broader_than_result_pattern :
    (∀ name : FileName,
      matchesRankGlob name = true → matchesCborGlob name = true) ∧
    matchesCborGlob (("state.cbor").data) = true ∧
    matchesRankGlob (("state.cbor").data) = false ∧
    ∀ env : Env, ("state.cbor").data ∈ env.dirFiles →
      mainTrace env = [Ev.scanEv, Ev.refuseEv] := by
  refine ⟨rank_match_implies_cbor_match, by decide, by decide, ?_⟩
  intro env hmem
  exact mainTrace_of_stale env ⟨("state.cbor").data, hmem, by decide⟩

/-- Witness for C10 (amended) at the per-rank name `state-rank-0.cbor`. -/
theorem guard_pattern_broader_than_result_pattern_witness :
    matchesCborGlob (("state-rank-0.cbor").data) = true :=
  guard_pattern_broader_than_result_pattern.1
    (("state-rank-0.cbor").data) (by decide)

end Gridiron
